import Mathlib

/-!
Verification development for the terrarium drag/scale/rotate script
(`src/script.js`). The script attaches, per draggable element, handlers for
pointer drag, mouse wheel, right-click, two-finger touch (pinch and twist) and
global keyboard arrows. JavaScript numbers are modelled as exact rationals
(`ℚ`); where IEEE special values (NaN, Infinity) matter, the type `JsVal`
below extends `ℚ` with them. Machine trigonometry (`Math.sqrt` in
`getDistance`, `Math.atan2` in `getAngle`) is abstracted by passing the
computed distance/angle as an input, constrained to the function's range
where a proof needs it.
-/

namespace Terrarium

/-- JavaScript truncation toward zero, as used by the `%` operator. -/
def jsTrunc (q : ℚ) : ℤ :=
if 0 ≤ q then ⌊q⌋ else -⌊-q⌋

/-- The JavaScript remainder operator `a % b` on finite numbers
(`b ≠ 0`): the sign follows the dividend, via truncated division. -/
def jsMod (a b : ℚ) : ℚ :=
a - b * jsTrunc (a / b)

/-- The clamp `Math.max(0.3, Math.min(3, x))` used by `handleWheel`
(line 211) and the two-finger pinch branch (line 131). -/
def clampScale (x : ℚ) : ℚ :=
max (3/10) (min 3 x)

/-- A JavaScript number where IEEE special values matter: NaN, the two
infinities, or a finite value (modelled exactly as a rational; the script
never produces a negative zero, so `ℚ` zero suffices). -/
inductive JsVal
| nan
| posInf
| negInf
| val (q : ℚ)
deriving DecidableEq, Repr

/-- JavaScript addition on `JsVal`. -/
def jsAdd : JsVal → JsVal → JsVal
| .nan, _ => .nan
| _, .nan => .nan
| .posInf, .negInf => .nan
| .negInf, .posInf => .nan
| .posInf, _ => .posInf
| _, .posInf => .posInf
| .negInf, _ => .negInf
| _, .negInf => .negInf
| .val a, .val b => .val (a + b)

/-- JavaScript subtraction on `JsVal`. -/
def jsSub : JsVal → JsVal → JsVal
| .nan, _ => .nan
| _, .nan => .nan
| .posInf, .posInf => .nan
| .negInf, .negInf => .nan
| .posInf, _ => .posInf
| _, .posInf => .negInf
| .negInf, _ => .negInf
| _, .negInf => .posInf
| .val a, .val b => .val (a - b)

/-- JavaScript multiplication on `JsVal`. -/
def jsMul : JsVal → JsVal → JsVal
| .nan, _ => .nan
| _, .nan => .nan
| .posInf, .posInf => .posInf
| .posInf, .negInf => .negInf
| .negInf, .posInf => .negInf
| .negInf, .negInf => .posInf
| .posInf, .val b => if 0 < b then .posInf else if b < 0 then .negInf else .nan
| .val a, .posInf => if 0 < a then .posInf else if a < 0 then .negInf else .nan
| .negInf, .val b => if 0 < b then .negInf else if b < 0 then .posInf else .nan
| .val a, .negInf => if 0 < a then .negInf else if a < 0 then .posInf else .nan
| .val a, .val b => .val (a * b)

/-- JavaScript division on `JsVal`: a nonzero finite dividend over zero
gives a signed infinity, `0 / 0` gives NaN. -/
def jsDiv : JsVal → JsVal → JsVal
| .nan, _ => .nan
| _, .nan => .nan
| .posInf, .posInf => .nan
| .posInf, .negInf => .nan
| .negInf, .posInf => .nan
| .negInf, .negInf => .nan
| .posInf, .val b => if 0 ≤ b then .posInf else .negInf
| .negInf, .val b => if 0 ≤ b then .negInf else .posInf
| .val _, .posInf => .val 0
| .val _, .negInf => .val 0
| .val a, .val b =>
    if b = 0 then (if a = 0 then .nan else if 0 < a then .posInf else .negInf)
    else .val (a / b)

/-- JavaScript `Math.min` on `JsVal`: NaN if either argument is NaN. -/
def jsMin : JsVal → JsVal → JsVal
| .nan, _ => .nan
| _, .nan => .nan
| .negInf, _ => .negInf
| _, .negInf => .negInf
| .posInf, b => b
| a, .posInf => a
| .val a, .val b => .val (min a b)

/-- JavaScript `Math.max` on `JsVal`: NaN if either argument is NaN. -/
def jsMax : JsVal → JsVal → JsVal
| .nan, _ => .nan
| _, .nan => .nan
| .posInf, _ => .posInf
| _, .posInf => .posInf
| .negInf, b => b
| a, .negInf => a
| .val a, .val b => .val (max a b)

/-- The JavaScript `%` operator on `JsVal`. -/
def jsModV : JsVal → JsVal → JsVal
| .nan, _ => .nan
| _, .nan => .nan
| .posInf, _ => .nan
| .negInf, _ => .nan
| .val a, .posInf => .val a
| .val a, .negInf => .val a
| .val a, .val b => if b = 0 then .nan else .val (jsMod a b)

/-- One rotation adjustment, through any of the three channels the script
offers. `twist` carries the gesture-start and current angles returned by
`getAngle` (lines 111, 127); `getAngle` is `Math.atan2` scaled to degrees, so
its results lie in (-180, 180]. The twist adds the angle difference to the
gesture-start snapshot of the rotation; each snapshot is itself a previously
stored value, so applying the step to the current value covers every stored
value the script produces. -/
inductive RotAdj
| rightClick
| keyArrowLeft
| keyArrowRight
| twist (startAngle curAngle : ℚ)
deriving DecidableEq, Repr

/-- The new stored rotation an adjustment computes from the current one:
lines 221-222 (`handleRightClick`), 59 and 63 (keydown), 134-135
(touchmove). -/
def rotStep (r : ℚ) : RotAdj → ℚ
| .rightClick => jsMod (r + 15) 360
| .keyArrowLeft => jsMod (r - 15 + 360) 360
| .keyArrowRight => jsMod (r + 15) 360
| .twist a1 a2 => jsMod (r + (a2 - a1) + 360) 360

/-- The stored rotation after a sequence of adjustments starting from `r`. -/
def rotRun (r : ℚ) (l : List RotAdj) : ℚ :=
l.foldl rotStep r

/-- A twist adjustment is valid when both its angles are in the range of
`getAngle`, namely (-180, 180] degrees (`Math.atan2` times 180/π). -/
def validRotAdj : RotAdj → Bool
| .twist a1 a2 => (decide (-180 < a1) && decide (a1 ≤ 180)) &&
    (decide (-180 < a2) && decide (a2 ≤ 180))
| _ => true

/-- Digits of the integer part of a captured number, read left to right. -/
def digitsToNat (ds : List Char) : ℕ :=
ds.foldl (fun n c => 10 * n + (c.toNat - 48)) 0

/-- Value of the fractional digits of a captured number. -/
def fracVal (ds : List Char) : ℚ :=
ds.foldr (fun c q => (((c.toNat - 48 : ℕ) : ℚ) + q) / 10) 0

/-- JavaScript `parseFloat` on an unsigned input: longest prefix of the form
`digits`, `digits.digits`, `digits.` or `.digits`; anything else is NaN.
The captures fed to it contain only digits, dots and minus signs, so no
exponent or whitespace handling is needed. -/
def parseFloatUnsigned (cs : List Char) : JsVal :=
match cs.takeWhile Char.isDigit, cs.dropWhile Char.isDigit with
| [], '.' :: r2 =>
    let fp := r2.takeWhile Char.isDigit
    if fp.isEmpty then .nan else .val (fracVal fp)
| [], _ => .nan
| ip, '.' :: r2 => .val ((digitsToNat ip : ℚ) + fracVal (r2.takeWhile Char.isDigit))
| ip, _ => .val (digitsToNat ip : ℚ)

/-- JavaScript `parseFloat` on a regex capture: optional sign, then an
unsigned number; NaN when no numeric prefix exists. -/
def parseFloatQ (cs : List Char) : JsVal :=
match cs with
| '-' :: rest =>
    match parseFloatUnsigned rest with
    | .val q => .val (-q)
    | v => v
| '+' :: rest => parseFloatUnsigned rest
| rest => parseFloatUnsigned rest

/-- Strip a literal off the front of a character list, or fail. -/
def dropLit : List Char → List Char → Option (List Char)
| [], cs => some cs
| _ :: _, [] => none
| p :: ps, c :: cs => if c = p then dropLit ps cs else none

/-- Character class `[\d.]` of the scale regex `scale\(([\d.]+)\)`. -/
def isScaleCapChar (c : Char) : Bool :=
c.isDigit || c == '.'

/-- Character class `[\d.-]` of the rotate regex `rotate\(([\d.-]+)deg\)`. -/
def isRotCapChar (c : Char) : Bool :=
c.isDigit || c == '.' || c == '-'

/-- Try the scale regex anchored at the start of `cs`: literal `scale(`,
a nonempty run of `[\d.]`, then `)`. The class excludes `)`, so the
regex engine's greedy match with backtracking coincides with taking the
maximal run and requiring `)` right after it. Returns the capture. -/
def matchScaleAt (cs : List Char) : Option (List Char) :=
match dropLit ("scale(".toList) cs with
| none => none
| some rest =>
    match rest.takeWhile isScaleCapChar, rest.dropWhile isScaleCapChar with
    | [], _ => none
    | cap, ')' :: _ => some cap
    | _, _ => none

/-- Leftmost match of `scale\(([\d.]+)\)`, as `String.prototype.match`
finds it (line 42 and line 162 of the script). -/
def findScale : List Char → Option (List Char)
| [] => none
| c :: cs =>
    match matchScaleAt (c :: cs) with
    | some cap => some cap
    | none => findScale cs

/-- Try the rotate regex anchored at the start of `cs`: literal
`rotate(`, a nonempty run of `[\d.-]`, then literal `deg)`. The class
excludes `d`, so greedy matching again coincides with the maximal run. -/
def matchRotateAt (cs : List Char) : Option (List Char) :=
match dropLit ("rotate(".toList) cs with
| none => none
| some rest =>
    match rest.takeWhile isRotCapChar with
    | [] => none
    | cap =>
        match dropLit ("deg)".toList) (rest.dropWhile isRotCapChar) with
        | some _ => some cap
        | none => none

/-- Leftmost match of `rotate\(([\d.-]+)deg\)` (line 43 and line 163). -/
def findRotate : List Char → Option (List Char)
| [] => none
| c :: cs =>
    match matchRotateAt (c :: cs) with
    | some cap => some cap
    | none => findRotate cs

/-- Keydown re-parse of the scale (lines 40-45): default 1, overridden by
`parseFloat` of the capture when the scale regex matches. -/
def keydownScale (transform : List Char) : JsVal :=
match findScale transform with
| none => .val 1
| some cap => parseFloatQ cap

/-- Keydown re-parse of the rotation (lines 40-46): default 0, overridden
by `parseFloat` of the capture when the rotate regex matches. -/
def keydownRotation (transform : List Char) : JsVal :=
match findRotate transform with
| none => .val 0
| some cap => parseFloatQ cap

/-- Pointer-down re-parse of the scale (lines 160-165): unlike the keydown
handler, on no match it keeps the closure's currently tracked value
(`scale` of `makeElementDraggable`, initially 1) rather than a literal 1. -/
def pointerDownScale (tracked : JsVal) (transform : List Char) : JsVal :=
match findScale transform with
| none => tracked
| some cap => parseFloatQ cap

/-- Pointer-down re-parse of the rotation (lines 160-166): on no match it
keeps the closure's currently tracked value (initially 0). -/
def pointerDownRotation (tracked : JsVal) (transform : List Char) : JsVal :=
match findRotate transform with
| none => tracked
| some cap => parseFloatQ cap

/-- The keys the keydown handler distinguishes (lines 48-67); `other`
covers every key that falls into the `default: return` branch. -/
inductive Key
| arrowUp
| arrowDown
| arrowLeft
| arrowRight
| other
deriving DecidableEq, Repr

/-- The scale/rotation pair the keydown handler computes and writes for a
given transform string and key (lines 39-69); `none` means the handler
returns without writing. -/
def keydownResult (transform : List Char) (k : Key) : Option (JsVal × JsVal) :=
let scale := keydownScale transform
let rotation := keydownRotation transform
match k with
| .arrowUp => some (jsMin (.val 3) (jsAdd scale (.val (1/10))), rotation)
| .arrowDown => some (jsMax (.val (3/10)) (jsSub scale (.val (1/10))), rotation)
| .arrowLeft => some (scale, jsModV (jsAdd (jsSub rotation (.val 15)) (.val 360)) (.val 360))
| .arrowRight => some (scale, jsModV (jsAdd rotation (.val 15)) (.val 360))
| .other => none

/-- The whole keydown handler (lines 36-70): with no selected element it
returns at line 37 without touching anything. -/
def keydownHandler (selected : Option (List Char)) (k : Key) :
    Option (JsVal × JsVal) :=
match selected with
| none => none
| some t => keydownResult t k

/-- The shapes of transform strings the script writes: the empty initial
style, the centering-only initialization (line 30), the keydown write
(line 69) and the `updateTransform` write (line 230). -/
inductive TransformVal
| emptyT
| translateOnly
| scaleRotate (s r : JsVal)
| translateScaleRotate (s r : JsVal)
deriving DecidableEq, Repr

/-- Whether a written transform begins with the `translate(-50%, -50%)`
component. -/
def startsWithTranslate : TransformVal → Bool
| .translateOnly => true
| .translateScaleRotate _ _ => true
| _ => false

/-- Line 69: the keydown handler writes `scale(S) rotate(Rdeg)` for the
values it computed, with no translate component. -/
def keydownWrittenTransform (transform : List Char) (k : Key) :
    Option TransformVal :=
(keydownResult transform k).map fun p => TransformVal.scaleRotate p.1 p.2

/-- Lines 227-231: `updateTransform`, the write shared by the wheel,
right-click and two-finger paths, writes
`translate(-50%, -50%) scale(S) rotate(Rdeg)`. -/
def updateTransform (scale rotation : JsVal) : TransformVal :=
TransformVal.translateScaleRotate scale rotation

/-- Decimal digits of a natural number, as JavaScript prints it. -/
def natChars (n : ℕ) : List Char :=
Nat.toDigits 10 n

/-- Fractional digits of a rational in [0, 1), most significant first,
cut off after `fuel` digits. -/
def fracChars : ℕ → ℚ → List Char
| 0, _ => []
| fuel + 1, q =>
    if q = 0 then []
    else Char.ofNat (48 + (⌊q * 10⌋).toNat) :: fracChars fuel (q * 10 - ⌊q * 10⌋)

/-- Rendering of a nonnegative rational: integer digits, then a dot and
the fractional digits when there are any. -/
def nonnegChars (q : ℚ) : List Char :=
natChars ⌊q⌋.toNat ++ (if q.den = 1 then [] else '.' :: fracChars 20 (q - ⌊q⌋))

/-- JavaScript number-to-string as used by the template literals: exact on
integers (every verified status text uses integer pointer coordinates);
non-integers are rendered to at most 20 fractional digits, a stand-in for
ECMAScript's shortest-round-trip printing which a rational model cannot
express for non-terminating expansions. -/
def numChars (q : ℚ) : List Char :=
if q < 0 then '-' :: nonnegChars (-q) else nonnegChars q

/-- Line 194: `Dragging <id> | X:<x>, Y:<y>` with the just-updated pointer
coordinates. -/
def dragStatusMsg (id : List Char) (x y : ℚ) : List Char :=
"Dragging ".toList ++ id ++ " | X:".toList ++ numChars x ++ ", Y:".toList ++ numChars y

/-- Line 235: the idle prompt restored on release. -/
def idleMsg : List Char :=
"Drag a plant or animal to see coordinates.".toList

/-- The drag-relevant state of one element: the last seen pointer
coordinates of the closure (`currentX`, `currentY`), the tracked position
in pixels (`element.style.top` / `element.style.left`, written as
`<n>px` and re-read exactly by `parseFloat`), and the status text. -/
structure DragState where
  currentX : ℚ
  currentY : ℚ
  top : ℚ
  left : ℚ
  status : List Char
deriving DecidableEq, Repr

/-- Function `handlePointerDown` (lines 157-184) as far as position tracking goes:
it records the pointer coordinates (lines 176-177) and leaves `top` and
`left` alone (lines 169-174 only convert an unset position to pixels).
The re-parse of scale and rotation at lines 160-166 is modelled by
`pointerDownScale` and `pointerDownRotation`. -/
def handlePointerDown (st : DragState) (x y : ℚ) : DragState :=
{ st with currentX := x, currentY := y }

/-- Function `handlePointerMove` (lines 186-203): delta = previous − current
pointer coordinates, subtracted from the tracked position, and the status
text rewritten from the updated coordinates. -/
def handlePointerMove (id : List Char) (st : DragState) (x y : ℚ) : DragState :=
let moveX := st.currentX - x
let moveY := st.currentY - y
{ currentX := x
  currentY := y
  top := st.top - moveY
  left := st.left - moveX
  status := dragStatusMsg id x y }

/-- Function `handlePointerUp` (lines 233-240): restores the idle status and leaves
the position untouched (listener removal is modelled in `engineStep`). -/
def handlePointerUp (st : DragState) : DragState :=
{ st with status := idleMsg }

/-- A sequence of pointer-move events. -/
def runMoves (id : List Char) (st : DragState) (ms : List (ℚ × ℚ)) : DragState :=
ms.foldl (fun s m => handlePointerMove id s m.1 m.2) st

/-- The two-finger branch of the touchmove handler (lines 121-138) over
exact rationals, with the inter-touch distance and angle passed as inputs
in place of `getDistance`/`getAngle`: new scale from the distance ratio
against the gesture-start snapshot, clamped; new rotation from the angle
difference against the gesture-start snapshot, wrapped by `%`. -/
def touchmoveTwoFinger (touchStartDistance touchStartAngle initialScale
    initialRotation currentDistance currentAngle : ℚ) : ℚ × ℚ :=
(clampScale (initialScale * (currentDistance / touchStartDistance)),
 jsMod (initialRotation + (currentAngle - touchStartAngle) + 360) 360)

/-- Following the spec text: new scale = baseline scale × (current
distance / start distance), "clamped to [0.3, 3.0]" in the glossary's
sense of constraining the value to the inclusive range. -/
def specPinchScale (baseline startDistance currentDistance : ℚ) : ℚ :=
min 3 (max (3/10) (baseline * (currentDistance / startDistance)))

/-- Mathematical modulo into [0, b) for b > 0, the spec's reading of
"mod". -/
def specMod (a b : ℚ) : ℚ :=
a - b * ⌊a / b⌋

/-- Following the spec text: new rotation = (baseline rotation + (current
angle − start angle) + 360) mod 360. -/
def specPinchRotation (baseline startAngle currentAngle : ℚ) : ℚ :=
specMod (baseline + (currentAngle - startAngle) + 360) 360

/-- The engine state relevant to the wheel and context-menu channels: the
tracked scale and rotation, and whether the four document-level handlers
(`onpointermove`, `onpointerup`, `onwheel`, `oncontextmenu`) are
currently assigned. -/
structure EngineState where
  scale : ℚ
  rotation : ℚ
  listenersRegistered : Bool
deriving DecidableEq, Repr

/-- The events of the wheel/context-menu channels. -/
inductive Event
| pointerDown
| pointerUp
| wheel (targetIsElement deltaYPos : Bool)
| contextMenu (targetIsElement : Bool)
deriving DecidableEq, Repr

/-- Pointer-down assigns the document-level handlers (lines 180-183;
scale and rotation are re-parsed there from the transform the engine
itself last wrote, recovering the tracked values). Pointer-up nulls them
(lines 236-239). A wheel event reaches `handleWheel` (lines 205-215) only
while the handler is assigned, and acts only when its target is the
element; likewise a context-menu event and `handleRightClick`
(lines 217-225). With no handler assigned the browser default runs and
the engine state is untouched. -/
def engineStep (s : EngineState) : Event → EngineState
| .pointerDown => { s with listenersRegistered := true }
| .pointerUp => { s with listenersRegistered := false }
| .wheel target deltaYPos =>
    if s.listenersRegistered && target then
      { s with scale := clampScale (s.scale + (if deltaYPos then -(1/20) else 1/20)) }
    else s
| .contextMenu target =>
    if s.listenersRegistered && target then
      { s with rotation := jsMod (s.rotation + 15) 360 }
    else s

/-- The pinch-to-zoom computation of the touchmove handler (lines
126-131) over JavaScript number semantics, with the inter-touch distances
passed in place of `getDistance` (whose results are nonnegative):
`scale = Math.max(0.3, Math.min(3, initialScale * (currentDistance /
touchStartDistance)))` with an unguarded division. -/
def touchmoveScaleJs (touchStartDistance currentDistance initialScale : JsVal) : JsVal :=
jsMax (.val (3/10))
  (jsMin (.val 3) (jsMul initialScale (jsDiv currentDistance touchStartDistance)))

/-- The touchend handler (lines 141-150): fewer than two remaining
touches resets the gesture-start distance to 0 (and the angle), while
release handling only runs at zero touches — so a later two-touch move
can observe a start distance of 0. -/
def touchendStartDistance (remainingTouches : ℕ) (d : JsVal) : JsVal :=
if remainingTouches < 2 then .val 0 else d

/-- One scale adjustment over JavaScript number semantics, through any of
the three channels the script offers. `wheel` carries the sign test
`e.deltaY > 0` (line 210); `pinchMove` carries the stored gesture-start
distance and the current inter-touch distance of a two-finger move
(lines 126-131), including the unguarded division — the stored start
distance can be 0 when the move follows the `touchendStartDistance`
reset. The pinch multiplies the gesture-start snapshot of the scale;
each snapshot is itself a previously stored value, so applying the step
to the current value covers every stored value the script produces. -/
inductive ScaleAdjJs
| wheel (deltaYPos : Bool)
| keyArrowUp
| keyArrowDown
| pinchMove (touchStartDistance currentDistance : JsVal)
deriving DecidableEq, Repr

/-- The new stored scale an adjustment computes from the current one, over
JavaScript numbers: lines 210-211 (`handleWheel`), 51 and 55 (keydown),
126-131 (the touchmove two-finger branch, via `touchmoveScaleJs`). -/
def scaleStepJs (s : JsVal) : ScaleAdjJs → JsVal
| .wheel deltaYPos =>
    jsMax (.val (3/10))
      (jsMin (.val 3) (jsAdd s (.val (if deltaYPos then -(1/20) else 1/20))))
| .keyArrowUp => jsMin (.val 3) (jsAdd s (.val (1/10)))
| .keyArrowDown => jsMax (.val (3/10)) (jsSub s (.val (1/10)))
| .pinchMove d0 d => touchmoveScaleJs d0 d s

/-- The stored scale after a sequence of adjustments starting from `s`. -/
def scaleRunJs (s : JsVal) (l : List ScaleAdjJs) : JsVal :=
l.foldl scaleStepJs s

/-- The claimed invariant on a stored scale value: a finite number within
[0.3, 3.0]; NaN and the infinities are outside it. -/
def scaleInRange : JsVal → Bool
| .val q => decide (3/10 ≤ q) && decide (q ≤ 3)
| _ => false

theorem jsMod_mem {a b : ℚ} (ha : 0 ≤ a) (hb : 0 < b) :
    0 ≤ jsMod a b ∧ jsMod a b < b := by
have hb' : (b : ℚ) ≠ 0 := ne_of_gt hb
have hq : 0 ≤ a / b := div_nonneg ha hb.le
have htr : jsTrunc (a / b) = ⌊a / b⌋ := by simp [jsTrunc, hq]
have heq : jsMod a b = b * Int.fract (a / b) := by
  rw [jsMod, htr, Int.fract]
  field_simp
constructor
· rw [heq]
  exact mul_nonneg hb.le (Int.fract_nonneg _)
· rw [heq]
  calc b * Int.fract (a / b) < b * 1 :=
        mul_lt_mul_of_pos_left (Int.fract_lt_one _) hb
    _ = b := mul_one b

theorem rotStep_mem {r : ℚ} (hlo : 0 ≤ r) (hhi : r < 360) (a : RotAdj)
    (hv : validRotAdj a = true) : 0 ≤ rotStep r a ∧ rotStep r a < 360 := by
cases a with
| rightClick => exact jsMod_mem (by linarith) (by norm_num)
| keyArrowLeft => exact jsMod_mem (by linarith) (by norm_num)
| keyArrowRight => exact jsMod_mem (by linarith) (by norm_num)
| twist a1 a2 =>
    simp only [validRotAdj, Bool.and_eq_true, decide_eq_true_eq] at hv
    exact jsMod_mem (by linarith [hv.1.2, hv.2.1]) (by norm_num)

theorem rotRun_mem {r : ℚ} (hlo : 0 ≤ r) (hhi : r < 360)
    (l : List RotAdj) (hv : ∀ a ∈ l, validRotAdj a = true) :
    0 ≤ rotRun r l ∧ rotRun r l < 360 := by
induction l generalizing r with
| nil => exact ⟨hlo, hhi⟩
| cons a t ih =>
    have h := rotStep_mem hlo hhi a (hv a (List.mem_cons_self a t))
    exact ih h.1 h.2 fun b hb => hv b (List.mem_cons_of_mem a hb)

/-- Claim C4: starting from the initial rotation 0, after any sequence of
rotation adjustments through the right-click handler, the
ArrowLeft/ArrowRight keyboard handler and the two-finger twist handler
(whose angles come from `getAngle`, hence lie in (-180, 180]), the stored
rotation lies within [0, 360) degrees, wrap-around in both directions
included (every prefix of a longer sequence is itself a sequence, so this
bounds the rotation after each adjustment). -/
theorem rotation_always_in_range (l : List RotAdj)
    (hv : ∀ a ∈ l, validRotAdj a = true) :
    0 ≤ rotRun 0 l ∧ rotRun 0 l < 360 :=
rotRun_mem le_rfl (by norm_num) l hv

/-- Witness for `rotation_always_in_range` at a concrete sequence that
wraps around in both directions. -/
theorem rotation_always_in_range_witness :
    (∀ a ∈ [RotAdj.keyArrowLeft, RotAdj.twist 170 (-170), RotAdj.rightClick],
      validRotAdj a = true) ∧
    0 ≤ rotRun 0 [RotAdj.keyArrowLeft, RotAdj.twist 170 (-170), RotAdj.rightClick] ∧
    rotRun 0 [RotAdj.keyArrowLeft, RotAdj.twist 170 (-170), RotAdj.rightClick] < 360 :=
⟨by decide,
 (rotation_always_in_range _ (by decide)).1,
 (rotation_always_in_range _ (by decide)).2⟩

/-- Claim C1 (code bug): the claimed invariant fails on the two-finger
pinch path. A touchend that leaves one touch resets the stored
gesture-start distance to 0 without ending the touch sequence; a
following two-touch move with coincident touches (current distance 0)
from the initial scale 1 computes the distance ratio 0/0 = NaN at
line 130, and `Math.max(0.3, Math.min(3, 1 * NaN)) = NaN`, so the stored
scale leaves [0.3, 3.0]. Every other adjustment clamps its result, so
the spec's always-clamped invariant is the evident intent and the
unguarded division is the slip. -/
theorem scale_invariant_violated :
    touchendStartDistance 1 (JsVal.val 130) = JsVal.val 0 ∧
    scaleRunJs (JsVal.val 1) [ScaleAdjJs.pinchMove (JsVal.val 0) (JsVal.val 0)]
      = JsVal.nan ∧
    scaleInRange (scaleRunJs (JsVal.val 1)
      [ScaleAdjJs.pinchMove (JsVal.val 0) (JsVal.val 0)]) = false := by
refine ⟨rfl, ?_, ?_⟩ <;>
  simp [scaleRunJs, scaleStepJs, touchmoveScaleJs, jsDiv, jsMul, jsMin, jsMax,
    scaleInRange]

/-- Claim C6: when a key-down event arrives, if no element is selected the
event is ignored; otherwise, with scale `sc` and rotation `rot` re-parsed
from the selected element's current transform string, ArrowUp sets the
scale to `min 3 (sc + 0.1)`, ArrowDown to `max 0.3 (sc - 0.1)`, ArrowLeft
sets the rotation to `(rot - 15 + 360) % 360` and ArrowRight to
`(rot + 15) % 360`. -/
theorem keydown_cases (t : List Char) (sc rot : ℚ)
    (hs : keydownScale t = JsVal.val sc) (hr : keydownRotation t = JsVal.val rot) :
    (∀ k, keydownHandler none k = none) ∧
    keydownHandler (some t) Key.arrowUp
      = some (JsVal.val (min 3 (sc + 1/10)), JsVal.val rot) ∧
    keydownHandler (some t) Key.arrowDown
      = some (JsVal.val (max (3/10) (sc - 1/10)), JsVal.val rot) ∧
    keydownHandler (some t) Key.arrowLeft
      = some (JsVal.val sc, JsVal.val (jsMod (rot - 15 + 360) 360)) ∧
    keydownHandler (some t) Key.arrowRight
      = some (JsVal.val sc, JsVal.val (jsMod (rot + 15) 360)) := by
refine ⟨fun k => rfl, ?_, ?_, ?_, ?_⟩ <;>
  simp [keydownHandler, keydownResult, hs, hr, jsAdd, jsSub, jsMin, jsMax, jsModV]

/-- Witness for `keydown_cases` at the concrete transform
`translate(-50%, -50%) scale(2) rotate(30deg)`. -/
theorem keydown_cases_witness :
    keydownScale ("translate(-50%, -50%) scale(2) rotate(30deg)".toList)
      = JsVal.val 2 ∧
    keydownHandler (some ("translate(-50%, -50%) scale(2) rotate(30deg)".toList))
      Key.arrowUp = some (JsVal.val (min 3 (2 + 1/10)), JsVal.val 30) := by
have hs : keydownScale ("translate(-50%, -50%) scale(2) rotate(30deg)".toList)
    = JsVal.val 2 := by decide
have hr : keydownRotation ("translate(-50%, -50%) scale(2) rotate(30deg)".toList)
    = JsVal.val 30 := by decide
exact ⟨hs,
  (keydown_cases ("translate(-50%, -50%) scale(2) rotate(30deg)".toList) 2 30
    hs hr).2.1⟩

/-- Claim C8 counterexample: the pointer-down re-parse with tracked scale
1.5 and an empty transform string keeps 1.5 — it does not fall back to
scale 1 as the claim states for both re-parse sites. -/
theorem pointerdown_reparse_keeps_tracked :
    pointerDownScale (JsVal.val (3/2)) [] = JsVal.val (3/2) ∧
    ¬ pointerDownScale (JsVal.val (3/2)) [] = JsVal.val 1 := by
refine ⟨rfl, ?_⟩
norm_num [pointerDownScale, findScale]

/-- Claim C8 as amended: when the transform string has no recognizable
`scale(...)` or `rotate(...deg)` component, the keydown re-parse falls
back to scale 1 and rotation 0, while the pointer-down re-parse falls
back to the element's currently tracked scale and rotation (which are 1
and 0 at initialization); neither site raises an error. -/
theorem reparse_fallback (t : List Char) (s r : JsVal)
    (hs : findScale t = none) (hr : findRotate t = none) :
    keydownScale t = JsVal.val 1 ∧ keydownRotation t = JsVal.val 0 ∧
    pointerDownScale s t = s ∧ pointerDownRotation r t = r := by
simp [keydownScale, keydownRotation, pointerDownScale, pointerDownRotation, hs, hr]

/-- Witness for `reparse_fallback` at the initial centering transform
`translate(-50%, -50%)`, which matches neither regex. -/
theorem reparse_fallback_witness :
    findScale ("translate(-50%, -50%)".toList) = none ∧
    keydownScale ("translate(-50%, -50%)".toList) = JsVal.val 1 ∧
    keydownRotation ("translate(-50%, -50%)".toList) = JsVal.val 0 ∧
    pointerDownScale (JsVal.val 1) ("translate(-50%, -50%)".toList) = JsVal.val 1 :=
⟨by decide,
 (reparse_fallback _ (JsVal.val 1) (JsVal.val 0) (by decide) (by decide)).1,
 (reparse_fallback _ (JsVal.val 1) (JsVal.val 0) (by decide) (by decide)).2.1,
 (reparse_fallback _ (JsVal.val 1) (JsVal.val 0) (by decide) (by decide)).2.2.1⟩

/-- Claim C2 (code bug): with the selected element's transform at its
initial value `translate(-50%, -50%)`, pressing ArrowUp makes the keydown
handler write `scale(1.1) rotate(0deg)` — a transform with no
`translate(-50%, -50%)` component at all — whereas every write through
`updateTransform` (the wheel, right-click and two-finger paths) does
start with the translate component. -/
theorem keydown_write_drops_translate :
    keydownWrittenTransform ("translate(-50%, -50%)".toList) Key.arrowUp
      = some (TransformVal.scaleRotate (JsVal.val (11/10)) (JsVal.val 0)) ∧
    startsWithTranslate (TransformVal.scaleRotate (JsVal.val (11/10)) (JsVal.val 0))
      = false ∧
    ∀ s r, startsWithTranslate (updateTransform s r) = true := by
have hfs : findScale ("translate(-50%, -50%)".toList) = none := by decide
have hfr : findRotate ("translate(-50%, -50%)".toList) = none := by decide
refine ⟨?_, rfl, fun s r => rfl⟩
simp only [keydownWrittenTransform, keydownResult, keydownScale, keydownRotation,
  hfs, hfr, jsAdd, jsMin, Option.map_some]
norm_num

/-- Claim C3 counterexample: pointer-down at (100, 100) then pointer-move
to (80, 130) on `plant1`, starting from position (top, left) = (200, 300),
yields left 280 and top 230 — the claim's "left increases by 20 and top
decreases by 30" (which would give 320 and 170) is false: the element
follows the pointer. -/
theorem drag_scenario_counterexample :
    (runMoves ("plant1".toList)
        (handlePointerDown ⟨0, 0, 200, 300, idleMsg⟩ 100 100) [(80, 130)]).left = 280 ∧
    (runMoves ("plant1".toList)
        (handlePointerDown ⟨0, 0, 200, 300, idleMsg⟩ 100 100) [(80, 130)]).top = 230 ∧
    ¬ ((runMoves ("plant1".toList)
        (handlePointerDown ⟨0, 0, 200, 300, idleMsg⟩ 100 100) [(80, 130)]).left
          = 300 + 20 ∧
       (runMoves ("plant1".toList)
        (handlePointerDown ⟨0, 0, 200, 300, idleMsg⟩ 100 100) [(80, 130)]).top
          = 200 - 30) := by
refine ⟨?_, ?_, ?_⟩ <;>
  norm_num [runMoves, handlePointerMove, handlePointerDown]

/-- Claim C3 as amended: after a pointer-down at (100, 100) and a
pointer-move to (80, 130) on `plant1`, `position.left` decreases by 20,
`position.top` increases by 30 (the element follows the pointer), and the
status text reads `Dragging plant1 | X:80, Y:130`. -/
theorem drag_scenario_amended (st : DragState) :
    (handlePointerMove ("plant1".toList)
        (handlePointerDown st 100 100) 80 130).left = st.left - 20 ∧
    (handlePointerMove ("plant1".toList)
        (handlePointerDown st 100 100) 80 130).top = st.top + 30 ∧
    (handlePointerMove ("plant1".toList)
        (handlePointerDown st 100 100) 80 130).status
      = "Dragging plant1 | X:80, Y:130".toList := by
refine ⟨?_, ?_, ?_⟩
· norm_num [handlePointerMove, handlePointerDown]
· norm_num [handlePointerMove, handlePointerDown]
· show dragStatusMsg ("plant1".toList) 80 130 = "Dragging plant1 | X:80, Y:130".toList
  decide

/-- Telescoping of a move sequence: the tracked position changes by the
difference between the last move's coordinates and the coordinates held
when the sequence started. -/
theorem runMoves_top_left (id : List Char) (ms : List (ℚ × ℚ)) (st : DragState) :
    (runMoves id st ms).top
      = st.top + ((ms.getLastD (st.currentX, st.currentY)).2 - st.currentY) ∧
    (runMoves id st ms).left
      = st.left + ((ms.getLastD (st.currentX, st.currentY)).1 - st.currentX) := by
induction ms generalizing st with
| nil => simp [runMoves]
| cons m t ih =>
    have hstep : runMoves id st (m :: t)
        = runMoves id (handlePointerMove id st m.1 m.2) t := rfl
    have h := ih (handlePointerMove id st m.1 m.2)
    rw [hstep, List.getLastD_cons]
    constructor
    · rw [h.1]
      simp only [handlePointerMove, Prod.mk.eta]
      ring
    · rw [h.2]
      simp only [handlePointerMove, Prod.mk.eta]
      ring

/-- Claim C7: a drag session (pointer-down, any sequence of pointer-moves,
pointer-up) whose final pointer coordinates equal its initial ones leaves
the tracked position (top, left) unchanged. -/
theorem drag_roundtrip (st : DragState) (id : List Char) (x0 y0 : ℚ)
    (ms : List (ℚ × ℚ)) (hend : ms.getLastD (x0, y0) = (x0, y0)) :
    (handlePointerUp (runMoves id (handlePointerDown st x0 y0) ms)).top = st.top ∧
    (handlePointerUp (runMoves id (handlePointerDown st x0 y0) ms)).left = st.left := by
have h := runMoves_top_left id ms (handlePointerDown st x0 y0)
have hcx : (handlePointerDown st x0 y0).currentX = x0 := rfl
have hcy : (handlePointerDown st x0 y0).currentY = y0 := rfl
have htp : (handlePointerDown st x0 y0).top = st.top := rfl
have hlf : (handlePointerDown st x0 y0).left = st.left := rfl
rw [hcx, hcy, htp, hlf, hend] at h
constructor
· show (runMoves id (handlePointerDown st x0 y0) ms).top = st.top
  rw [h.1]
  simp
· show (runMoves id (handlePointerDown st x0 y0) ms).left = st.left
  rw [h.2]
  simp

/-- Witness for `drag_roundtrip`: down at (10, 20), moves to (50, 60) and
back to (10, 20), up — position (200, 300) is restored. -/
theorem drag_roundtrip_witness :
    ([((50 : ℚ), (60 : ℚ)), (10, 20)].getLastD (10, 20) = (10, 20)) ∧
    (handlePointerUp (runMoves ("plant1".toList)
        (handlePointerDown ⟨0, 0, 200, 300, idleMsg⟩ 10 20)
        [(50, 60), (10, 20)])).top = 200 ∧
    (handlePointerUp (runMoves ("plant1".toList)
        (handlePointerDown ⟨0, 0, 200, 300, idleMsg⟩ 10 20)
        [(50, 60), (10, 20)])).left = 300 :=
⟨by decide,
 (drag_roundtrip ⟨0, 0, 200, 300, idleMsg⟩ ("plant1".toList) 10 20
   [(50, 60), (10, 20)] (by decide)).1,
 (drag_roundtrip ⟨0, 0, 200, 300, idleMsg⟩ ("plant1".toList) 10 20
   [(50, 60), (10, 20)] (by decide)).2⟩

/-- Claim C5: on a two-touch move following a two-touch gesture start
(start distance positive, angles in the range of `getAngle`, baseline
rotation nonnegative), the new scale is the baseline times the distance
ratio clamped to [0.3, 3.0] and the new rotation is (baseline + angle
difference + 360) mod 360, exactly as the spec states them; in
particular, start distance 100, current distance 50 and baseline scale 1
yield scale 0.5. -/
theorem touchmove_matches_spec (d0 a0 s0 r0 d a : ℚ) (hd0 : 0 < d0)
    (hr0 : 0 ≤ r0) (ha : -360 < a - a0) :
    (touchmoveTwoFinger d0 a0 s0 r0 d a).1 = specPinchScale s0 d0 d ∧
    (touchmoveTwoFinger d0 a0 s0 r0 d a).2 = specPinchRotation r0 a0 a ∧
    (touchmoveTwoFinger 100 0 1 0 50 0).1 = 1/2 := by
refine ⟨?_, ?_, ?_⟩
· show clampScale (s0 * (d / d0)) = min 3 (max (3/10) (s0 * (d / d0)))
  rw [clampScale, max_min_distrib_left]
  congr 1
  norm_num
· show jsMod (r0 + (a - a0) + 360) 360 = specPinchRotation r0 a0 a
  have hx : (0 : ℚ) ≤ r0 + (a - a0) + 360 := by linarith
  rw [jsMod, jsTrunc, if_pos (div_nonneg hx (by norm_num))]
  rfl
· norm_num [touchmoveTwoFinger, clampScale, jsMod, jsTrunc]

/-- Witness for `touchmove_matches_spec` at the spec's pinch scenario. -/
theorem touchmove_matches_spec_witness :
    (0 : ℚ) < 100 ∧
    (touchmoveTwoFinger 100 0 1 0 50 0).1 = specPinchScale 1 100 50 ∧
    (touchmoveTwoFinger 100 0 1 0 50 0).2 = specPinchRotation 0 0 0 ∧
    (touchmoveTwoFinger 100 0 1 0 50 0).1 = 1/2 :=
⟨by norm_num,
 (touchmove_matches_spec 100 0 1 0 50 0 (by norm_num) le_rfl (by norm_num)).1,
 (touchmove_matches_spec 100 0 1 0 50 0 (by norm_num) le_rfl (by norm_num)).2.1,
 (touchmove_matches_spec 100 0 1 0 50 0 (by norm_num) le_rfl (by norm_num)).2.2⟩

/-- Claim C9: while no drag is in progress the document-level wheel and
context-menu handlers are not assigned, and wheel or context-menu events
then leave the engine state entirely unchanged; pointer-down assigns the
handlers and pointer-up removes them, delimiting the interval in which
those events can act. -/
theorem wheel_context_inert_outside_drag (s : EngineState)
    (h : s.listenersRegistered = false) :
    (∀ target deltaYPos, engineStep s (Event.wheel target deltaYPos) = s) ∧
    (∀ target, engineStep s (Event.contextMenu target) = s) ∧
    (∀ s' : EngineState,
      (engineStep s' Event.pointerDown).listenersRegistered = true ∧
      (engineStep s' Event.pointerUp).listenersRegistered = false) := by
refine ⟨fun target deltaYPos => ?_, fun target => ?_, fun s' => ⟨rfl, rfl⟩⟩ <;>
  simp [engineStep, h]

/-- Witness for `wheel_context_inert_outside_drag` at the initial engine
state. -/
theorem wheel_context_inert_outside_drag_witness :
    engineStep ⟨1, 0, false⟩ (Event.wheel true true) = ⟨1, 0, false⟩ ∧
    engineStep ⟨1, 0, false⟩ (Event.contextMenu true) = ⟨1, 0, false⟩ :=
⟨(wheel_context_inert_outside_drag ⟨1, 0, false⟩ rfl).1 true true,
 (wheel_context_inert_outside_drag ⟨1, 0, false⟩ rfl).2.1 true⟩

/-- Claim C10 counterexample: with the gesture-start distance reset to 0
by a touchend that left one touch, a two-touch move at inter-touch
distance 100 and baseline scale 1 computes `100 / 0 = Infinity`, and the
clamp turns it into scale 3 — not NaN as the claim states. -/
theorem pinch_after_reset_counterexample :
    touchendStartDistance 1 (JsVal.val 130) = JsVal.val 0 ∧
    touchmoveScaleJs (JsVal.val 0) (JsVal.val 100) (JsVal.val 1) = JsVal.val 3 ∧
    ¬ touchmoveScaleJs (JsVal.val 0) (JsVal.val 100) (JsVal.val 1) = JsVal.nan := by
refine ⟨rfl, ?_, ?_⟩
· norm_num [touchmoveScaleJs, jsDiv, jsMul, jsMin, jsMax]
· norm_num [touchmoveScaleJs, jsDiv, jsMul, jsMin, jsMax]
  decide

/-- Claim C10 as amended: a two-touch move processed while the stored
gesture-start distance is 0 divides by zero unguarded; with a positive
current distance the ratio is Infinity and the stored scale becomes the
clamp maximum 3.0 regardless of the baseline, and only when the current
distance is also 0 does the scale become NaN, escaping the [0.3, 3.0]
clamp. -/
theorem pinch_after_reset_amended (d s0 : ℚ) (hd : 0 < d) (hs0 : 0 < s0) :
    touchmoveScaleJs (JsVal.val 0) (JsVal.val d) (JsVal.val s0) = JsVal.val 3 ∧
    touchmoveScaleJs (JsVal.val 0) (JsVal.val 0) (JsVal.val s0) = JsVal.nan := by
have hd' : d ≠ 0 := ne_of_gt hd
constructor
· simp [touchmoveScaleJs, jsDiv, jsMul, jsMin, jsMax, hd', hd, hs0]
  norm_num
· simp [touchmoveScaleJs, jsDiv, jsMul, jsMin, jsMax]

/-- Witness for `pinch_after_reset_amended` at current distance 100 and
baseline scale 1. -/
theorem pinch_after_reset_amended_witness :
    (0 : ℚ) < 100 ∧
    touchmoveScaleJs (JsVal.val 0) (JsVal.val 100) (JsVal.val 1) = JsVal.val 3 ∧
    touchmoveScaleJs (JsVal.val 0) (JsVal.val 0) (JsVal.val 1) = JsVal.nan :=
⟨by norm_num,
 (pinch_after_reset_amended 100 1 (by norm_num) (by norm_num)).1,
 (pinch_after_reset_amended 100 1 (by norm_num) (by norm_num)).2⟩

end Terrarium
